import Mathlib

/-!
Verification of the Unified Capability-Server Connection Manager.

Shallow embedding of `app/services/unified_mcp_manager.py`
(`UnifiedMCPManager`): per-tenant connection caching, credential caching,
credential-refresh detection, staleness checks, failure backoff, the
request-scoped global-connection cache, error invalidation and shutdown.

Modelling conventions:
* Tenant ids (UUIDs) and connection handles (Python object identity) are
  naturals; timestamps (`datetime.now(UTC)`) are integer seconds.
* Python nested dicts `{tenant_id: {key: value}}` become curried maps
  `Tenant → Key → Option Value`; a missing outer or inner key is `none`.
* The database / credential store and the capability-server client are
  oracles passed as arguments: `db_creds` is what the store would return
  if consulted, `outcome` is what the `open` attempt would do if made.
* Each acquire operation returns the produced handle (or `none`), the
  updated manager state, whether an `open` was attempted and whether the
  store was consulted; a raised exception from `open` never escapes in the
  source (every path is caught), so the embedding is a total function.
-/

set_option autoImplicit false

namespace UnifiedMCP

/-- Tenant identifiers (UUIDs in the source). -/
abbrev Tenant := Nat

/-- Connection handles; distinct naturals model distinct Python objects. -/
abbrev Handle := Nat

/-- Timestamps, in integer seconds. -/
abbrev Time := Int

/-- The two connection types managed per tenant (`"quickbooks"` / `"global"`). -/
inductive ConnectionType where
  | quickbooks
  | global
  deriving DecidableEq, Repr

/-- The two credential-cache keys (`"quickbooks"` / `"sheets"`). -/
inductive CredsType where
  | quickbooks
  | sheets
  deriving DecidableEq, Repr

/-- QuickBooks credentials as returned by `get_quickbooks_credentials`:
the dict keys `access_token` and `realm_id` actually read by the manager.
Token/realm strings are modelled as naturals. -/
structure QBCreds where
  access_token : Nat
  realm_id : Nat
  deriving DecidableEq, Repr

/-- Google Sheets credentials dict built by `_get_google_sheets_credentials`. -/
structure SheetsCreds where
  refresh_token : Nat
  inventory_workbook_id : Option Nat
  inventory_worksheet_name : Option Nat
  orders_workbook_id : Option Nat
  orders_worksheet_name : Option Nat
  deriving DecidableEq, Repr

/-- Outcome of one `enter_async_context(MCPServerStreamableHttp(...))`
attempt (wrapped in `asyncio.wait_for`): success with a fresh handle, or
the three exception classes the source distinguishes
(`asyncio.TimeoutError`, `asyncio.CancelledError`, any other `Exception`). -/
inductive OpenOutcome where
  | success (h : Handle)
  | timeout
  | cancelled
  | err
  deriving DecidableEq, Repr

/-- Error classes passed to `handle_connection_error`
(`anyio.ClosedResourceError` vs anything else). -/
inductive MCPError where
  | closedResource
  | other
  deriving DecidableEq, Repr

/-- In-memory state of `UnifiedMCPManager` (plus the module-level
context variable `_request_global_mcp`). Field names follow the source's
attribute names without the leading underscore. -/
structure ManagerState where
  /-- Source `_tenant_connections : {tenant_id: {"quickbooks"/"global": mcp}}` -/
  tenant_connections : Tenant → ConnectionType → Option Handle
  /-- Source `_tenant_tokens : {tenant_id: access_token}` -/
  tenant_tokens : Tenant → Option Nat
  /-- Source `_connection_created_at : {tenant_id: {type: datetime}}` -/
  connection_created_at : Tenant → ConnectionType → Option Time
  /-- Source `_failed_connections : {tenant_id: {type: datetime}}` -/
  failed_connections : Tenant → ConnectionType → Option Time
  /-- Source `_quickbooks_creds_cache : {tenant_id: creds}`; the source only ever
  stores truthy dicts here (`if creds:` guards the write), so `none`
  means "key absent". -/
  quickbooks_creds_cache : Tenant → Option QBCreds
  /-- Source `_sheets_creds_cache : {tenant_id: creds-or-None}`; here the source
  deliberately stores `None` values, so the outer `Option` is key
  presence and the inner one the stored value. -/
  sheets_creds_cache : Tenant → Option (Option SheetsCreds)
  /-- Source `_creds_cache_timestamps : {tenant_id: {"quickbooks"/"sheets": datetime}}` -/
  creds_cache_timestamps : Tenant → CredsType → Option Time
  /-- whether `_exit_stack` is a live entered `AsyncExitStack` (vs `None`) -/
  exit_stack_open : Bool
  /-- context variable `_request_global_mcp : {tenant_id: mcp}` -/
  request_global_mcp : Tenant → Option Handle

/-- Embedding of `__init__`: every registry empty, no exit stack, empty request cache. -/
def initState : ManagerState where
  tenant_connections := fun _ _ => none
  tenant_tokens := fun _ => none
  connection_created_at := fun _ _ => none
  failed_connections := fun _ _ => none
  quickbooks_creds_cache := fun _ => none
  sheets_creds_cache := fun _ => none
  creds_cache_timestamps := fun _ _ => none
  exit_stack_open := false
  request_global_mcp := fun _ => none

/-- Constant `_failed_connection_ttl = timedelta(seconds=30)` -/
def failed_connection_ttl : Int := 30

/-- Constant `_max_connection_age = timedelta(minutes=30)` -/
def max_connection_age : Int := 30 * 60

/-- Constant `_creds_cache_ttl = timedelta(minutes=5)` -/
def creds_cache_ttl : Int := 5 * 60

/-- Point update of a one-key map. -/
def update1 {α β : Type} [DecidableEq α] (f : α → β) (a : α) (v : β) : α → β :=
  fun x => if x = a then v else f x

/-- Point update of a two-key (nested-dict) map. -/
def update2 {α β γ : Type} [DecidableEq α] [DecidableEq β]
    (f : α → β → γ) (a : α) (b : β) (v : γ) : α → β → γ :=
  fun x y => if x = a ∧ y = b then v else f x y

/-- Embedding of `_is_connection_stale`: `True` when no creation timestamp is recorded,
otherwise `age > _max_connection_age`. -/
def is_connection_stale (st : ManagerState) (now : Time) (tenant : Tenant)
    (ct : ConnectionType) : Bool :=
  match st.connection_created_at tenant ct with
  | none => true
  | some created_at => decide (now - created_at > max_connection_age)

/-- Embedding of `_is_failure_expired`: `True` when no failure is recorded, otherwise
`age > _failed_connection_ttl`. -/
def is_failure_expired (st : ManagerState) (now : Time) (tenant : Tenant)
    (ct : ConnectionType) : Bool :=
  match st.failed_connections tenant ct with
  | none => true
  | some failed_at => decide (now - failed_at > failed_connection_ttl)

/-- Embedding of `_is_creds_cache_stale`: `True` when no cache timestamp is recorded,
otherwise `age > _creds_cache_ttl`. -/
def is_creds_cache_stale (st : ManagerState) (now : Time) (tenant : Tenant)
    (ct : CredsType) : Bool :=
  match st.creds_cache_timestamps tenant ct with
  | none => true
  | some cached_at => decide (now - cached_at > creds_cache_ttl)

/-- Embedding of `_invalidate_connection`: pops the handle, its creation timestamp AND
its failed-connection entry for `(tenant, ct)`; closes nothing. -/
def invalidate_connection (st : ManagerState) (tenant : Tenant)
    (ct : ConnectionType) : ManagerState :=
  { st with
    tenant_connections := update2 st.tenant_connections tenant ct none
    connection_created_at := update2 st.connection_created_at tenant ct none
    failed_connections := update2 st.failed_connections tenant ct none }

/-- Embedding of `_mark_connection_failed`: records the failure at the current time. -/
def mark_connection_failed (st : ManagerState) (now : Time) (tenant : Tenant)
    (ct : ConnectionType) : ManagerState :=
  { st with
    failed_connections := update2 st.failed_connections tenant ct (some now) }

/-- Embedding of `handle_connection_error`: both the `ClosedResourceError` branch and the
catch-all branch call `_invalidate_connection`. -/
def handle_connection_error (st : ManagerState) (tenant : Tenant)
    (ct : ConnectionType) (error : MCPError) : ManagerState :=
  match error with
  | .closedResource => invalidate_connection st tenant ct
  | .other => invalidate_connection st tenant ct

/-- Embedding of `cleanup`: exits the exit stack (closing every held session), then in the
`finally` block clears `_tenant_connections`, `_tenant_tokens` and `_locks`
and resets `_exit_stack` to `None`. The other registries are left as-is. -/
def cleanup (st : ManagerState) : ManagerState :=
  { st with
    exit_stack_open := false
    tenant_connections := fun _ _ => none
    tenant_tokens := fun _ => none }

/-- Result of one acquire call: the value returned to the caller, the
manager state afterwards, whether an `open` of the capability-server
client was attempted, and whether the credential store (DB) was consulted. -/
structure CallResult where
  result : Option Handle
  state : ManagerState
  open_attempted : Bool
  db_consulted : Bool

/-- STEP 1 of `get_quickbooks_mcp`: resolve credentials through
`_quickbooks_creds_cache`, falling back to `get_quickbooks_credentials`
(the store oracle `db_creds`); a non-`None` fetched result is cached and
timestamped, a `None` result is not. Returns the resolved credentials,
the updated state, and whether the store was consulted. -/
def resolve_quickbooks_creds (st : ManagerState) (now : Time) (tenant : Tenant)
    (db_creds : Option QBCreds) : Option QBCreds × ManagerState × Bool :=
  if (st.quickbooks_creds_cache tenant).isSome
      && !(is_creds_cache_stale st now tenant .quickbooks) then
    (st.quickbooks_creds_cache tenant, st, false)
  else
    match db_creds with
    | some c =>
      (some c,
       { st with
         quickbooks_creds_cache := update1 st.quickbooks_creds_cache tenant (some c)
         creds_cache_timestamps :=
           update2 st.creds_cache_timestamps tenant .quickbooks (some now) },
       true)
    | none => (none, st, true)

/-- STEP 2 of `get_quickbooks_mcp`: if a token is recorded for the tenant and
differs from the current one, `_invalidate_connection(tenant, "quickbooks")`. -/
def token_refresh_check (st : ManagerState) (tenant : Tenant)
    (current_token : Nat) : ManagerState :=
  match st.tenant_tokens tenant with
  | some cached_token =>
    if cached_token ≠ current_token then
      invalidate_connection st tenant .quickbooks
    else st
  | none => st

/-- STEP 3 of `get_quickbooks_mcp`: if the connection is stale,
`_invalidate_connection(tenant, "quickbooks")`. -/
def staleness_check (st : ManagerState) (now : Time) (tenant : Tenant) :
    ManagerState :=
  if is_connection_stale st now tenant .quickbooks then
    invalidate_connection st tenant .quickbooks
  else st

/-- STEP 5 of `get_quickbooks_mcp`: the guarded `open` attempt. On success
the handle is cached in `_tenant_connections`, the token recorded in
`_tenant_tokens` and the creation time in `_connection_created_at`; each of
`asyncio.TimeoutError`, `asyncio.CancelledError` and any other exception is
caught, `_mark_connection_failed` is called and `None` returned. -/
def open_quickbooks (st : ManagerState) (now : Time) (tenant : Tenant)
    (current_token : Nat) (outcome : OpenOutcome) (dbc : Bool) : CallResult :=
  match outcome with
  | .success h =>
    ⟨some h,
     { st with
       tenant_connections :=
         update2 st.tenant_connections tenant .quickbooks (some h)
       tenant_tokens := update1 st.tenant_tokens tenant (some current_token)
       connection_created_at :=
         update2 st.connection_created_at tenant .quickbooks (some now) },
     true, dbc⟩
  | .timeout =>
    ⟨none, mark_connection_failed st now tenant .quickbooks, true, dbc⟩
  | .cancelled =>
    ⟨none, mark_connection_failed st now tenant .quickbooks, true, dbc⟩
  | .err =>
    ⟨none, mark_connection_failed st now tenant .quickbooks, true, dbc⟩

/-- The state after STEPS 2–3 of `get_quickbooks_mcp` (token-refresh check
followed by staleness check). -/
def qb_check_state (st : ManagerState) (now : Time) (tenant : Tenant)
    (creds : QBCreds) : ManagerState :=
  staleness_check (token_refresh_check st tenant creds.access_token) now tenant

/-- STEPS 2–5 of `get_quickbooks_mcp`, after credentials resolved to a
truthy dict: token-refresh check, staleness check, reuse of a cached
handle, the failed-connection backoff guard, then the `open` attempt
(preceded by `_ensure_exit_stack`). -/
def get_quickbooks_mcp_with_creds (st : ManagerState) (now : Time)
    (tenant : Tenant) (creds : QBCreds) (outcome : OpenOutcome) (dbc : Bool) :
    CallResult :=
  match (qb_check_state st now tenant creds).tenant_connections tenant
      .quickbooks with
  | some h => ⟨some h, qb_check_state st now tenant creds, false, dbc⟩
  | none =>
    if !(is_failure_expired (qb_check_state st now tenant creds) now tenant
        .quickbooks) then
      ⟨none, qb_check_state st now tenant creds, false, dbc⟩
    else
      open_quickbooks
        { qb_check_state st now tenant creds with exit_stack_open := true }
        now tenant creds.access_token outcome dbc

/-- Embedding of `get_quickbooks_mcp(tenant_id, db)` under the tenant lock, with the
credential store and the capability-server client as oracles. When the
resolved credentials are falsy the call returns `None` before any
invalidation, cache write or `open` attempt. -/
def get_quickbooks_mcp (st : ManagerState) (now : Time) (tenant : Tenant)
    (db_creds : Option QBCreds) (outcome : OpenOutcome) : CallResult :=
  match resolve_quickbooks_creds st now tenant db_creds with
  | (none, st1, dbc) => ⟨none, st1, false, dbc⟩
  | (some creds, st1, dbc) =>
    get_quickbooks_mcp_with_creds st1 now tenant creds outcome dbc

/-- Embedding of `_get_google_sheets_credentials`: serve from `_sheets_creds_cache` when
present and fresh (the cached value may itself be `None`); otherwise query
the DB (oracle `db_sheets`) and cache the result — explicitly including a
`None` result — with a `"sheets"` timestamp. -/
def get_google_sheets_credentials (st : ManagerState) (now : Time)
    (tenant : Tenant) (db_sheets : Option SheetsCreds) :
    Option SheetsCreds × ManagerState × Bool :=
  if (st.sheets_creds_cache tenant).isSome
      && !(is_creds_cache_stale st now tenant .sheets) then
    ((st.sheets_creds_cache tenant).getD none, st, false)
  else
    match db_sheets with
    | none =>
      (none,
       { st with
         sheets_creds_cache := update1 st.sheets_creds_cache tenant (some none)
         creds_cache_timestamps :=
           update2 st.creds_cache_timestamps tenant .sheets (some now) },
       true)
    | some c =>
      (some c,
       { st with
         sheets_creds_cache :=
           update1 st.sheets_creds_cache tenant (some (some c))
         creds_cache_timestamps :=
           update2 st.creds_cache_timestamps tenant .sheets (some now) },
       true)

/-- The guarded `open` of `get_global_mcp` (STEP 6). The sheets credentials
only shape the request headers, never the manager state. On success the
handle is stored in the request-scoped context variable only; every
exception class is caught, `_mark_connection_failed(tenant, "global")` is
called and `None` returned. -/
def open_global (st : ManagerState) (now : Time) (tenant : Tenant)
    (outcome : OpenOutcome) (dbc : Bool) : CallResult :=
  match outcome with
  | .success h =>
    ⟨some h,
     { st with request_global_mcp := update1 st.request_global_mcp tenant (some h) },
     true, dbc⟩
  | .timeout => ⟨none, mark_connection_failed st now tenant .global, true, dbc⟩
  | .cancelled => ⟨none, mark_connection_failed st now tenant .global, true, dbc⟩
  | .err => ⟨none, mark_connection_failed st now tenant .global, true, dbc⟩

/-- Embedding of `get_global_mcp(tenant_id, db)`: request-scoped cache first (STEP 0 and
the post-lock double check coincide in this sequential embedding), then
sheets-credential resolution, the failed-connection backoff guard, header
construction (state-free) and the `open` attempt. Note: absent sheets
credentials do NOT short-circuit the call — the connection is still opened,
only without the credential headers. -/
def get_global_mcp (st : ManagerState) (now : Time) (tenant : Tenant)
    (db_sheets : Option SheetsCreds) (outcome : OpenOutcome) : CallResult :=
  match st.request_global_mcp tenant with
  | some h => ⟨some h, st, false, false⟩
  | none =>
    match get_google_sheets_credentials st now tenant db_sheets with
    | (_sheets_creds, st1, dbc) =>
      if !(is_failure_expired st1 now tenant .global) then
        ⟨none, st1, false, dbc⟩
      else
        open_global { st1 with exit_stack_open := true } now tenant outcome dbc

/-! Basic lemmas about the map updates and small steps. -/

@[simp]
theorem update1_same {α β : Type} [DecidableEq α] (f : α → β) (a : α) (v : β) :
    update1 f a v a = v := by
  simp [update1]

theorem update1_other {α β : Type} [DecidableEq α] (f : α → β) (a x : α) (v : β)
    (hx : x ≠ a) : update1 f a v x = f x := by
  simp [update1, hx]

@[simp]
theorem update2_same {α β γ : Type} [DecidableEq α] [DecidableEq β]
    (f : α → β → γ) (a : α) (b : β) (v : γ) : update2 f a b v a b = v := by
  simp [update2]

theorem update2_other {α β γ : Type} [DecidableEq α] [DecidableEq β]
    (f : α → β → γ) (a x : α) (b y : β) (v : γ) (hxy : ¬(x = a ∧ y = b)) :
    update2 f a b v x y = f x y := by
  simp [update2, hxy]

/-- On any non-success outcome, the guarded QuickBooks `open` marks the
failure and returns `None`. -/
theorem open_quickbooks_failure (st : ManagerState) (now : Time)
    (tenant : Tenant) (tok : Nat) (outcome : OpenOutcome) (dbc : Bool)
    (hfail : ∀ h, outcome ≠ OpenOutcome.success h) :
    open_quickbooks st now tenant tok outcome dbc =
      ⟨none, mark_connection_failed st now tenant .quickbooks, true, dbc⟩ := by
  cases outcome with
  | success h => exact absurd rfl (hfail h)
  | timeout => rfl
  | cancelled => rfl
  | err => rfl

/-- On any non-success outcome, the guarded global `open` marks the failure
and returns `None`. -/
theorem open_global_failure (st : ManagerState) (now : Time) (tenant : Tenant)
    (outcome : OpenOutcome) (dbc : Bool)
    (hfail : ∀ h, outcome ≠ OpenOutcome.success h) :
    open_global st now tenant outcome dbc =
      ⟨none, mark_connection_failed st now tenant .global, true, dbc⟩ := by
  cases outcome with
  | success h => exact absurd rfl (hfail h)
  | timeout => rfl
  | cancelled => rfl
  | err => rfl

/-! Claims. -/

/-- Claim C1: If the capability-server client's `open` raises any exception
(timeout, cancellation, or any other), neither `get_quickbooks_mcp` nor
`get_global_mcp` propagates it (the embedding is total: every branch
returns): whenever the failing `open` was actually attempted the call
returns `None`, the failure tracker records the failure for that
(tenant, integration) pair at the current time, and no half-constructed
handle is left in the process-wide registry (resp. the request-scoped
registry used by the global integration). -/
theorem c1_open_failure_contained (st : ManagerState) (now : Time)
    (tenant : Tenant) (db_creds : Option QBCreds)
    (db_sheets : Option SheetsCreds) (outcome : OpenOutcome)
    (hfail : ∀ h, outcome ≠ OpenOutcome.success h) :
    ((get_quickbooks_mcp st now tenant db_creds outcome).open_attempted = true →
      (get_quickbooks_mcp st now tenant db_creds outcome).result = none ∧
      (get_quickbooks_mcp st now tenant db_creds outcome).state.failed_connections
          tenant .quickbooks = some now ∧
      (get_quickbooks_mcp st now tenant db_creds outcome).state.tenant_connections
          tenant .quickbooks = none) ∧
    ((get_global_mcp st now tenant db_sheets outcome).open_attempted = true →
      (get_global_mcp st now tenant db_sheets outcome).result = none ∧
      (get_global_mcp st now tenant db_sheets outcome).state.failed_connections
          tenant .global = some now ∧
      (get_global_mcp st now tenant db_sheets outcome).state.request_global_mcp
          tenant = none) := by
  constructor
  · unfold get_quickbooks_mcp
    rcases hres : resolve_quickbooks_creds st now tenant db_creds with
      ⟨creds?, st1, dbc⟩
    cases creds? with
    | none => intro hatt; simp at hatt
    | some creds =>
      unfold get_quickbooks_mcp_with_creds
      rcases hconn : (qb_check_state st1 now tenant creds).tenant_connections
          tenant .quickbooks with _ | h
      · by_cases hb : is_failure_expired (qb_check_state st1 now tenant creds)
            now tenant .quickbooks = true
        · simp only [hconn, hb, Bool.not_true, Bool.false_eq_true, if_false,
            open_quickbooks_failure _ _ _ _ _ _ hfail]
          intro _
          refine ⟨trivial, ?_, ?_⟩
          · simp [mark_connection_failed]
          · simpa [mark_connection_failed] using hconn
        · simp only [Bool.not_eq_true] at hb
          simp [hconn, hb]
      · intro hatt
        simp [hconn] at hatt
  · unfold get_global_mcp
    rcases hreq : st.request_global_mcp tenant with _ | h
    · rcases hsc : get_google_sheets_credentials st now tenant db_sheets with
        ⟨sheets?, st1, dbc⟩
      by_cases hb : is_failure_expired st1 now tenant .global = true
      · simp only [hb, Bool.not_true, Bool.false_eq_true, if_false,
          open_global_failure _ _ _ _ _ hfail]
        intro _
        refine ⟨trivial, ?_, ?_⟩
        · simp [mark_connection_failed]
        · have h1 : st1.request_global_mcp = st.request_global_mcp := by
            rcases hsv : (st.sheets_creds_cache tenant).isSome
                && !(is_creds_cache_stale st now tenant .sheets) with _ | _ <;>
              cases db_sheets <;>
              simp [get_google_sheets_credentials, hsv] at hsc <;>
              simp [← hsc.2.1]
          simp [mark_connection_failed, h1, hreq]
      · simp only [Bool.not_eq_true] at hb
        simp [hb]
    · intro hatt
      simp at hatt

/-- Credential resolution only touches the credential cache and its
timestamps: every other state component is preserved. -/
theorem resolve_qb_preserves (st : ManagerState) (now : Time) (tenant : Tenant)
    (dbc : Option QBCreds) :
    ((resolve_quickbooks_creds st now tenant dbc).2.1).tenant_connections
        = st.tenant_connections ∧
    ((resolve_quickbooks_creds st now tenant dbc).2.1).tenant_tokens
        = st.tenant_tokens ∧
    ((resolve_quickbooks_creds st now tenant dbc).2.1).connection_created_at
        = st.connection_created_at ∧
    ((resolve_quickbooks_creds st now tenant dbc).2.1).failed_connections
        = st.failed_connections ∧
    ((resolve_quickbooks_creds st now tenant dbc).2.1).request_global_mcp
        = st.request_global_mcp := by
  unfold resolve_quickbooks_creds
  split
  · exact ⟨rfl, rfl, rfl, rfl, rfl⟩
  · cases dbc <;> exact ⟨rfl, rfl, rfl, rfl, rfl⟩

/-- Sheets-credential resolution likewise only touches the credential cache
and its timestamps. -/
theorem sheets_creds_preserves (st : ManagerState) (now : Time)
    (tenant : Tenant) (dbs : Option SheetsCreds) :
    ((get_google_sheets_credentials st now tenant dbs).2.1).tenant_connections
        = st.tenant_connections ∧
    ((get_google_sheets_credentials st now tenant dbs).2.1).failed_connections
        = st.failed_connections ∧
    ((get_google_sheets_credentials st now tenant dbs).2.1).request_global_mcp
        = st.request_global_mcp := by
  unfold get_google_sheets_credentials
  split
  · exact ⟨rfl, rfl, rfl⟩
  · cases dbs <;> exact ⟨rfl, rfl, rfl⟩

/-- When a (fresh, token-matching) handle is cached, `get_quickbooks_mcp`'s
steps 2–5 take the pure reuse path: same handle back, no state change, no
`open`. -/
theorem with_creds_reuse (st1 : ManagerState) (now : Time) (tenant : Tenant)
    (creds : QBCreds) (outcome : OpenOutcome) (dbc : Bool) (h : Handle)
    (tc : Time)
    (hconn : st1.tenant_connections tenant .quickbooks = some h)
    (htok : st1.tenant_tokens tenant = none ∨
      st1.tenant_tokens tenant = some creds.access_token)
    (hts : st1.connection_created_at tenant .quickbooks = some tc)
    (hfresh : now - tc ≤ max_connection_age) :
    get_quickbooks_mcp_with_creds st1 now tenant creds outcome dbc =
      ⟨some h, st1, false, dbc⟩ := by
  have h2 : token_refresh_check st1 tenant creds.access_token = st1 := by
    rcases htok with htok | htok <;> simp [token_refresh_check, htok]
  have h3 : staleness_check st1 now tenant = st1 := by
    have hns : is_connection_stale st1 now tenant .quickbooks = false := by
      simp only [is_connection_stale, hts, decide_eq_false_iff_not, not_lt]
      exact hfresh
    simp [staleness_check, hns]
  have h23 : qb_check_state st1 now tenant creds = st1 := by
    unfold qb_check_state
    rw [h2]
    exact h3
  unfold get_quickbooks_mcp_with_creds
  rw [h23, hconn]

/-- Characterization of a `get_quickbooks_mcp` call that actually opened a
connection and succeeded: the outcome was a successful `open`, and the final
state records the handle, its creation time `now`, and the access token of
the credentials the call resolved. -/
theorem qb_open_success_char (st : ManagerState) (now : Time) (tenant : Tenant)
    (dbc : Option QBCreds) (outcome : OpenOutcome) (h : Handle)
    (hopen : (get_quickbooks_mcp st now tenant dbc outcome).open_attempted = true)
    (hres : (get_quickbooks_mcp st now tenant dbc outcome).result = some h) :
    outcome = .success h ∧
    (get_quickbooks_mcp st now tenant dbc outcome).state.tenant_connections
        tenant .quickbooks = some h ∧
    (get_quickbooks_mcp st now tenant dbc outcome).state.connection_created_at
        tenant .quickbooks = some now ∧
    ∃ c, (resolve_quickbooks_creds st now tenant dbc).1 = some c ∧
      (get_quickbooks_mcp st now tenant dbc outcome).state.tenant_tokens tenant
        = some c.access_token := by
  revert hopen hres
  unfold get_quickbooks_mcp
  rcases hrs : resolve_quickbooks_creds st now tenant dbc with ⟨creds?, st1, dbcons⟩
  cases creds? with
  | none => intro hopen; simp at hopen
  | some creds =>
    unfold get_quickbooks_mcp_with_creds
    rcases hconn : (qb_check_state st1 now tenant creds).tenant_connections
        tenant .quickbooks with _ | h0
    · by_cases hb : is_failure_expired (qb_check_state st1 now tenant creds)
          now tenant .quickbooks = true
      · simp only [hconn, hb, Bool.not_true, Bool.false_eq_true, if_false]
        cases outcome with
        | success h1 =>
          intro _ hres
          simp only [open_quickbooks, CallResult.result] at hres
          obtain rfl : h1 = h := by simpa using hres
          refine ⟨rfl, ?_, ?_, creds, rfl, ?_⟩ <;>
            simp [open_quickbooks]
        | timeout => intro _ hres; simp [open_quickbooks] at hres
        | cancelled => intro _ hres; simp [open_quickbooks] at hres
        | err => intro _ hres; simp [open_quickbooks] at hres
      · simp only [Bool.not_eq_true] at hb
        intro hopen
        simp [hconn, hb] at hopen
    · intro hopen
      simp [hconn] at hopen

/-- A successful `get_global_mcp` call leaves its handle in the
request-scoped cache. -/
theorem global_success_reqcache (st : ManagerState) (now : Time)
    (tenant : Tenant) (dbs : Option SheetsCreds) (outcome : OpenOutcome)
    (h : Handle)
    (hres : (get_global_mcp st now tenant dbs outcome).result = some h) :
    (get_global_mcp st now tenant dbs outcome).state.request_global_mcp tenant
      = some h := by
  revert hres
  unfold get_global_mcp
  rcases hreq : st.request_global_mcp tenant with _ | h0
  · rcases hsc : get_google_sheets_credentials st now tenant dbs with
      ⟨sheets?, st1, dbcons⟩
    by_cases hb : is_failure_expired st1 now tenant .global = true
    · simp only [hb, Bool.not_true, Bool.false_eq_true, if_false]
      cases outcome with
      | success h1 =>
        intro hres
        obtain rfl : h1 = h := by simpa [open_global] using hres
        simp [open_global]
      | timeout => intro hres; simp [open_global] at hres
      | cancelled => intro hres; simp [open_global] at hres
      | err => intro hres; simp [open_global] at hres
    · simp only [Bool.not_eq_true] at hb
      intro hres
      simp [hb] at hres
  · intro hres
    obtain rfl : h0 = h := by simpa using hres
    simpa using hreq

/-- STEP 0 of `get_global_mcp`: a request-scoped cache hit returns the
cached handle with no state change, no store lookup and no `open`. -/
theorem global_reqcache_hit (st : ManagerState) (now : Time) (tenant : Tenant)
    (dbs : Option SheetsCreds) (outcome : OpenOutcome) (h : Handle)
    (hreq : st.request_global_mcp tenant = some h) :
    get_global_mcp st now tenant dbs outcome = ⟨some h, st, false, false⟩ := by
  unfold get_global_mcp
  rw [hreq]

/-- Claim C2: Two sequential successful acquire calls for the same
(tenant, integration) pair — for QuickBooks: within the 30-minute staleness
window of the connection created by the first call and with the second
call resolving the same credentials; for global: any second call in the
same request context — return the same handle object, and only the first
call performs an `open` (the second attempts none). -/
theorem c2_sequential_reuse (st : ManagerState) (t1 t2 : Time)
    (tenant : Tenant) (dbc1 dbc2 : Option QBCreds)
    (dbs1 dbs2 : Option SheetsCreds) (o1 o2 : OpenOutcome) (hq hg : Handle) :
    ((get_quickbooks_mcp st t1 tenant dbc1 o1).result = some hq →
     (get_quickbooks_mcp st t1 tenant dbc1 o1).open_attempted = true →
     t2 - t1 ≤ max_connection_age →
     (resolve_quickbooks_creds (get_quickbooks_mcp st t1 tenant dbc1 o1).state
         t2 tenant dbc2).1
       = (resolve_quickbooks_creds st t1 tenant dbc1).1 →
     (get_quickbooks_mcp (get_quickbooks_mcp st t1 tenant dbc1 o1).state t2
         tenant dbc2 o2).result = some hq ∧
     (get_quickbooks_mcp (get_quickbooks_mcp st t1 tenant dbc1 o1).state t2
         tenant dbc2 o2).open_attempted = false) ∧
    ((get_global_mcp st t1 tenant dbs1 o1).result = some hg →
     (get_global_mcp (get_global_mcp st t1 tenant dbs1 o1).state t2 tenant
         dbs2 o2).result = some hg ∧
     (get_global_mcp (get_global_mcp st t1 tenant dbs1 o1).state t2 tenant
         dbs2 o2).open_attempted = false) := by
  constructor
  · intro hres hopen hwin hcreds
    obtain ⟨-, hconn, hts, c, hc, htok⟩ :=
      qb_open_success_char st t1 tenant dbc1 o1 hq hopen hres
    set st' := (get_quickbooks_mcp st t1 tenant dbc1 o1).state with hst'
    rw [hc] at hcreds
    have hpres := resolve_qb_preserves st' t2 tenant dbc2
    rcases hrs2 : resolve_quickbooks_creds st' t2 tenant dbc2 with
      ⟨creds2?, st1', dbcons2⟩
    have hc2 : creds2? = some c := by
      have hx := hcreds
      rw [hrs2] at hx
      exact hx
    subst hc2
    rw [hrs2] at hpres
    have hrw := with_creds_reuse st1' t2 tenant c o2 dbcons2 hq t1
      (by rw [hpres.1]; exact hconn)
      (Or.inr (by rw [hpres.2.1]; exact htok))
      (by rw [hpres.2.2.1]; exact hts)
      hwin
    have hcall : get_quickbooks_mcp st' t2 tenant dbc2 o2 =
        ⟨some hq, st1', false, dbcons2⟩ := by
      unfold get_quickbooks_mcp
      rw [hrs2]
      exact hrw
    rw [hcall]
    exact ⟨rfl, rfl⟩
  · intro hres
    have hreq := global_success_reqcache st t1 tenant dbs1 o1 hg hres
    rw [global_reqcache_hit (get_global_mcp st t1 tenant dbs1 o1).state t2
      tenant dbs2 o2 hg hreq]
    exact ⟨rfl, rfl⟩

@[simp]
theorem invalidate_connection_conn (st : ManagerState) (t : Tenant)
    (ct : ConnectionType) :
    (invalidate_connection st t ct).tenant_connections t ct = none := by
  simp [invalidate_connection]

@[simp]
theorem invalidate_connection_created (st : ManagerState) (t : Tenant)
    (ct : ConnectionType) :
    (invalidate_connection st t ct).connection_created_at t ct = none := by
  simp [invalidate_connection]

@[simp]
theorem invalidate_connection_failed (st : ManagerState) (t : Tenant)
    (ct : ConnectionType) :
    (invalidate_connection st t ct).failed_connections t ct = none := by
  simp [invalidate_connection]

/-- Claim C3: If a QuickBooks handle is cached for a tenant and the next call
resolves credentials whose access token differs from the recorded one, the
old handle is invalidated, a new `open` occurs, and the returned handle —
fresh by object identity — replaces the old one in the registry and differs
from it. -/
theorem c3_token_rotation_recreates (st : ManagerState) (now : Time)
    (tenant : Tenant) (dbc : Option QBCreds) (h_old : Handle) (tok_old : Nat)
    (c : QBCreds) (h_new : Handle)
    (_hconn : st.tenant_connections tenant .quickbooks = some h_old)
    (htok : st.tenant_tokens tenant = some tok_old)
    (hres : (resolve_quickbooks_creds st now tenant dbc).1 = some c)
    (hrot : c.access_token ≠ tok_old)
    (hfresh : h_new ≠ h_old) :
    (get_quickbooks_mcp st now tenant dbc (.success h_new)).result
        = some h_new ∧
    (get_quickbooks_mcp st now tenant dbc (.success h_new)).open_attempted
        = true ∧
    (get_quickbooks_mcp st now tenant dbc
        (.success h_new)).state.tenant_connections tenant .quickbooks
        = some h_new ∧
    some h_new ≠ some h_old := by
  have hpres := resolve_qb_preserves st now tenant dbc
  rcases hrs : resolve_quickbooks_creds st now tenant dbc with
    ⟨creds?, st1, dbcons⟩
  rw [hrs] at hres hpres
  obtain rfl : creds? = some c := hres
  have h2 : token_refresh_check st1 tenant c.access_token
      = invalidate_connection st1 tenant .quickbooks := by
    have ht1 : st1.tenant_tokens tenant = some tok_old := by
      rw [hpres.2.1]; exact htok
    simp [token_refresh_check, ht1, Ne.symm hrot]
  have h3 : qb_check_state st1 now tenant c
      = invalidate_connection (invalidate_connection st1 tenant .quickbooks)
          tenant .quickbooks := by
    unfold qb_check_state
    rw [h2]
    simp [staleness_check, is_connection_stale]
  have hcall : get_quickbooks_mcp st now tenant dbc (.success h_new)
      = get_quickbooks_mcp_with_creds st1 now tenant c (.success h_new)
          dbcons := by
    unfold get_quickbooks_mcp
    rw [hrs]
  rw [hcall]
  unfold get_quickbooks_mcp_with_creds
  rw [h3]
  have hf : is_failure_expired
      (invalidate_connection (invalidate_connection st1 tenant .quickbooks)
        tenant .quickbooks) now tenant .quickbooks = true := by
    simp [is_failure_expired]
  simp [hf, open_quickbooks, hfresh]

/-- Claim C4, divergence witness: The 30-second failure backoff is bypassed
on the QuickBooks path: with no prior successful connection, the staleness
check of STEP 3 always fires (no creation timestamp exists) and its
`_invalidate_connection` pops the failure-tracker entry recorded by the
failed attempt, so a second call 10 s after a failed `open` — well inside
the 30 s window — reaches STEP 5 and invokes `open` again instead of
returning `None`. -/
theorem c4_backoff_bypassed :
    (get_quickbooks_mcp initState 0 0 (some ⟨1, 2⟩)
        OpenOutcome.err).state.failed_connections 0 .quickbooks = some 0 ∧
    (10 : Int) - 0 < failed_connection_ttl ∧
    (get_quickbooks_mcp
        (get_quickbooks_mcp initState 0 0 (some ⟨1, 2⟩) OpenOutcome.err).state
        10 0 (some ⟨1, 2⟩) (OpenOutcome.success 7)).open_attempted = true ∧
    (get_quickbooks_mcp
        (get_quickbooks_mcp initState 0 0 (some ⟨1, 2⟩) OpenOutcome.err).state
        10 0 (some ⟨1, 2⟩) (OpenOutcome.success 7)).result = some 7 := by
  decide

/-- Claim C5, counterexample: For the global integration the claim fails: with
no sheets credentials at all (store returns `None`, empty cache),
`get_global_mcp` still attempts an `open` and returns the fresh handle
rather than `None`. -/
theorem c5_global_counterexample :
    (get_global_mcp initState 0 0 none (OpenOutcome.success 5)).result
        = some 5 ∧
    (get_global_mcp initState 0 0 none
        (OpenOutcome.success 5)).open_attempted = true := by
  decide

/-- If credential resolution yields nothing, it is the store-consulting
branch with a `None` store answer, and the state is left untouched. -/
theorem resolve_qb_none_state (st : ManagerState) (now : Time)
    (tenant : Tenant) (dbc : Option QBCreds)
    (hres : (resolve_quickbooks_creds st now tenant dbc).1 = none) :
    resolve_quickbooks_creds st now tenant dbc = (none, st, true) := by
  revert hres
  unfold resolve_quickbooks_creds
  split
  · intro hres
    rename_i hcond
    simp only [] at hres
    rw [hres] at hcond
    simp at hcond
  · cases dbc with
    | some c => intro hres; simp at hres
    | none => intro _; rfl

/-- Claim C5, amended: When credential resolution yields no QuickBooks
credentials, `get_quickbooks_mcp` returns `None` with no `open` attempt and
no state change; `get_global_mcp`, by contrast, proceeds to open without
credential headers (see the counterexample). -/
theorem c5_quickbooks_no_creds (st : ManagerState) (now : Time)
    (tenant : Tenant) (dbc : Option QBCreds) (outcome : OpenOutcome)
    (hres : (resolve_quickbooks_creds st now tenant dbc).1 = none) :
    (get_quickbooks_mcp st now tenant dbc outcome).result = none ∧
    (get_quickbooks_mcp st now tenant dbc outcome).open_attempted = false ∧
    (get_quickbooks_mcp st now tenant dbc outcome).state = st := by
  have hz := resolve_qb_none_state st now tenant dbc hres
  unfold get_quickbooks_mcp
  rw [hz]
  exact ⟨rfl, rfl, rfl⟩

/-- Witness for C5's amended theorem at a concrete input. -/
theorem c5_quickbooks_no_creds_witness :
    (get_quickbooks_mcp initState 0 0 none OpenOutcome.err).result = none ∧
    (get_quickbooks_mcp initState 0 0 none OpenOutcome.err).open_attempted
        = false ∧
    (get_quickbooks_mcp initState 0 0 none OpenOutcome.err).state
        = initState :=
  c5_quickbooks_no_creds initState 0 0 none OpenOutcome.err (by decide)

/-- Claim C6, counterexample: `handle_connection_error` does remove the broken
handle, but — contrary to the claim — it also clears the failure-tracker
entry for the pair: starting from a state with a cached handle and a
recorded failure, the entry is gone afterwards. -/
theorem c6_counterexample :
    ({ initState with
        tenant_connections :=
          update2 initState.tenant_connections 0 .quickbooks (some 5)
        failed_connections :=
          update2 initState.failed_connections 0 .quickbooks
            (some 50) } : ManagerState).failed_connections 0 .quickbooks
      = some 50 ∧
    (handle_connection_error
        { initState with
          tenant_connections :=
            update2 initState.tenant_connections 0 .quickbooks (some 5)
          failed_connections :=
            update2 initState.failed_connections 0 .quickbooks (some 50) }
        0 .quickbooks MCPError.closedResource).tenant_connections 0
        .quickbooks = none ∧
    (handle_connection_error
        { initState with
          tenant_connections :=
            update2 initState.tenant_connections 0 .quickbooks (some 5)
          failed_connections :=
            update2 initState.failed_connections 0 .quickbooks (some 50) }
        0 .quickbooks MCPError.closedResource).failed_connections 0
        .quickbooks = none := by
  decide

/-- Claim C6, amended: For every error class, `handle_connection_error`
removes the broken handle and its creation timestamp from the registry (so
the next acquire call rebuilds it) AND clears the failure-tracker entry for
that (tenant, integration) pair; entries of every other pair, the token map
and the credential caches are untouched. -/
theorem c6_amended (st : ManagerState) (tenant : Tenant)
    (ct : ConnectionType) (e : MCPError) :
    (handle_connection_error st tenant ct e).tenant_connections tenant ct
        = none ∧
    (handle_connection_error st tenant ct e).connection_created_at tenant ct
        = none ∧
    (handle_connection_error st tenant ct e).failed_connections tenant ct
        = none ∧
    (∀ t' ct', ¬(t' = tenant ∧ ct' = ct) →
      (handle_connection_error st tenant ct e).tenant_connections t' ct'
          = st.tenant_connections t' ct' ∧
      (handle_connection_error st tenant ct e).failed_connections t' ct'
          = st.failed_connections t' ct') ∧
    (handle_connection_error st tenant ct e).tenant_tokens
        = st.tenant_tokens ∧
    (handle_connection_error st tenant ct e).quickbooks_creds_cache
        = st.quickbooks_creds_cache ∧
    (handle_connection_error st tenant ct e).sheets_creds_cache
        = st.sheets_creds_cache := by
  cases e <;>
    exact ⟨by simp [handle_connection_error],
      by simp [handle_connection_error],
      by simp [handle_connection_error],
      fun t' ct' hne =>
        ⟨by simp [handle_connection_error, invalidate_connection,
            update2_other _ _ _ _ _ _ hne],
         by simp [handle_connection_error, invalidate_connection,
            update2_other _ _ _ _ _ _ hne]⟩,
      rfl, rfl, rfl⟩

/-- Witness for C6's amended theorem at a concrete input. -/
theorem c6_amended_witness :
    (handle_connection_error initState 0 .quickbooks
        MCPError.other).tenant_connections 0 .quickbooks = none ∧
    (handle_connection_error initState 0 .quickbooks
        MCPError.other).failed_connections 1 .global
      = initState.failed_connections 1 .global := by
  have hm := c6_amended initState 0 .quickbooks MCPError.other
  exact ⟨hm.1, (hm.2.2.2.1 1 .global (by decide)).2⟩

/-- Claim C7, counterexample: The QuickBooks path does not cache an explicit
"no credentials" result: after a lookup that consulted the store and got
`None`, no cache entry and no timestamp exist, and a lookup one second
later consults the store again. -/
theorem c7_counterexample :
    (get_quickbooks_mcp initState 0 0 none OpenOutcome.err).db_consulted
        = true ∧
    (get_quickbooks_mcp initState 0 0 none
        OpenOutcome.err).state.quickbooks_creds_cache 0 = none ∧
    (get_quickbooks_mcp initState 0 0 none
        OpenOutcome.err).state.creds_cache_timestamps 0 .quickbooks = none ∧
    (get_quickbooks_mcp
        (get_quickbooks_mcp initState 0 0 none OpenOutcome.err).state 1 0
        none OpenOutcome.err).db_consulted = true := by
  decide

/-- Claim C7, amended: Credential lookups serve cached entries younger than
the 5-minute TTL without consulting the store, and a store consultation
caches its result with a timestamp — except that the QuickBooks path caches
only non-`None` results (a `None` answer leaves the state untouched), while
the Google Sheets path also caches explicit `None` answers: (i) after a
QuickBooks lookup that consulted the store and got credentials `c`, any
lookup within the TTL returns `c` from the cache without consulting the
store; (ii) a QuickBooks lookup that consults the store and gets `None`
caches nothing; (iii) after a Sheets lookup that consulted the store and got
`None`, any lookup within the TTL returns `None` from the cache without
consulting the store. -/
theorem c7_amended (st : ManagerState) (t1 t2 : Time) (tenant : Tenant)
    (c : QBCreds) (dbc2 : Option QBCreds) (dbs2 : Option SheetsCreds) :
    ((resolve_quickbooks_creds st t1 tenant (some c)).2.2 = true →
     t2 - t1 ≤ creds_cache_ttl →
     resolve_quickbooks_creds
         (resolve_quickbooks_creds st t1 tenant (some c)).2.1 t2 tenant dbc2
       = (some c, (resolve_quickbooks_creds st t1 tenant (some c)).2.1,
          false)) ∧
    ((resolve_quickbooks_creds st t1 tenant none).2.2 = true →
     resolve_quickbooks_creds st t1 tenant none = (none, st, true)) ∧
    ((get_google_sheets_credentials st t1 tenant none).2.2 = true →
     t2 - t1 ≤ creds_cache_ttl →
     get_google_sheets_credentials
         (get_google_sheets_credentials st t1 tenant none).2.1 t2 tenant dbs2
       = (none, (get_google_sheets_credentials st t1 tenant none).2.1,
          false)) := by
  refine ⟨?_, ?_, ?_⟩
  · unfold resolve_quickbooks_creds
    split
    · intro hcons
      simp at hcons
    · intro _ hwin
      simp only []
      have hcache : (update1 st.quickbooks_creds_cache tenant (some c)) tenant
          = some c := update1_same _ _ _
      have hfreshb : is_creds_cache_stale
          { st with
            quickbooks_creds_cache :=
              update1 st.quickbooks_creds_cache tenant (some c)
            creds_cache_timestamps :=
              update2 st.creds_cache_timestamps tenant .quickbooks
                (some t1) } t2 tenant .quickbooks = false := by
        simp only [is_creds_cache_stale, update2_same,
          decide_eq_false_iff_not, not_lt]
        exact hwin
      rw [if_pos]
      · rw [hcache]
      · simp only [hcache, hfreshb]
        rfl
  · unfold resolve_quickbooks_creds
    split
    · intro hcons
      simp at hcons
    · intro _
      rfl
  · unfold get_google_sheets_credentials
    split
    · intro hcons
      simp at hcons
    · intro _ hwin
      simp only []
      have hcache : (update1 st.sheets_creds_cache tenant (some none)) tenant
          = some none := update1_same _ _ _
      have hfreshb : is_creds_cache_stale
          { st with
            sheets_creds_cache :=
              update1 st.sheets_creds_cache tenant (some none)
            creds_cache_timestamps :=
              update2 st.creds_cache_timestamps tenant .sheets
                (some t1) } t2 tenant .sheets = false := by
        simp only [is_creds_cache_stale, update2_same,
          decide_eq_false_iff_not, not_lt]
        exact hwin
      rw [if_pos]
      · rw [hcache]
        rfl
      · simp only [hcache, hfreshb]
        rfl

/-- Witness for C7's amended theorem at a concrete input. -/
theorem c7_amended_witness :
    resolve_quickbooks_creds
        (resolve_quickbooks_creds initState 0 0 (some ⟨1, 2⟩)).2.1 10 0 none
      = (some ⟨1, 2⟩,
         (resolve_quickbooks_creds initState 0 0 (some ⟨1, 2⟩)).2.1, false) ∧
    resolve_quickbooks_creds initState 0 0 none = (none, initState, true) ∧
    get_google_sheets_credentials
        (get_google_sheets_credentials initState 0 0 none).2.1 10 0 none
      = (none, (get_google_sheets_credentials initState 0 0 none).2.1,
         false) := by
  have hm := c7_amended initState 0 10 0 ⟨1, 2⟩ none none
  exact ⟨hm.1 (by decide) (by decide), hm.2.1 (by decide),
    hm.2.2 (by decide) (by decide)⟩

/-- Claim C8, counterexample: `cleanup` does not empty every in-memory
registry: starting from a state with a creation timestamp, a failure
record, and both credential caches populated, all of those entries survive
`cleanup`. -/
theorem c8_counterexample :
    (cleanup
        { initState with
          connection_created_at :=
            update2 initState.connection_created_at 0 .quickbooks (some 1)
          failed_connections :=
            update2 initState.failed_connections 0 .quickbooks (some 2)
          quickbooks_creds_cache :=
            update1 initState.quickbooks_creds_cache 0 (some ⟨1, 2⟩)
          sheets_creds_cache :=
            update1 initState.sheets_creds_cache 0 (some none)
          creds_cache_timestamps :=
            update2 initState.creds_cache_timestamps 0 .quickbooks
              (some 3) }).connection_created_at 0 .quickbooks = some 1 ∧
    (cleanup
        { initState with
          connection_created_at :=
            update2 initState.connection_created_at 0 .quickbooks (some 1)
          failed_connections :=
            update2 initState.failed_connections 0 .quickbooks (some 2)
          quickbooks_creds_cache :=
            update1 initState.quickbooks_creds_cache 0 (some ⟨1, 2⟩)
          sheets_creds_cache :=
            update1 initState.sheets_creds_cache 0 (some none)
          creds_cache_timestamps :=
            update2 initState.creds_cache_timestamps 0 .quickbooks
              (some 3) }).failed_connections 0 .quickbooks = some 2 ∧
    (cleanup
        { initState with
          connection_created_at :=
            update2 initState.connection_created_at 0 .quickbooks (some 1)
          failed_connections :=
            update2 initState.failed_connections 0 .quickbooks (some 2)
          quickbooks_creds_cache :=
            update1 initState.quickbooks_creds_cache 0 (some ⟨1, 2⟩)
          sheets_creds_cache :=
            update1 initState.sheets_creds_cache 0 (some none)
          creds_cache_timestamps :=
            update2 initState.creds_cache_timestamps 0 .quickbooks
              (some 3) }).quickbooks_creds_cache 0 = some ⟨1, 2⟩ ∧
    (cleanup
        { initState with
          connection_created_at :=
            update2 initState.connection_created_at 0 .quickbooks (some 1)
          failed_connections :=
            update2 initState.failed_connections 0 .quickbooks (some 2)
          quickbooks_creds_cache :=
            update1 initState.quickbooks_creds_cache 0 (some ⟨1, 2⟩)
          sheets_creds_cache :=
            update1 initState.sheets_creds_cache 0 (some none)
          creds_cache_timestamps :=
            update2 initState.creds_cache_timestamps 0 .quickbooks
              (some 3) }).creds_cache_timestamps 0 .quickbooks = some 3 := by
  decide

/-- Claim C8, amended: After `cleanup` the exit stack is closed and the
connection registry and token map are empty, but the creation-timestamp
map, the failure tracker and both credential caches (with their
timestamps) are left exactly as they were. -/
theorem c8_amended (st : ManagerState) :
    (cleanup st).exit_stack_open = false ∧
    (∀ t ct, (cleanup st).tenant_connections t ct = none) ∧
    (∀ t, (cleanup st).tenant_tokens t = none) ∧
    (cleanup st).connection_created_at = st.connection_created_at ∧
    (cleanup st).failed_connections = st.failed_connections ∧
    (cleanup st).quickbooks_creds_cache = st.quickbooks_creds_cache ∧
    (cleanup st).sheets_creds_cache = st.sheets_creds_cache ∧
    (cleanup st).creds_cache_timestamps = st.creds_cache_timestamps :=
  ⟨rfl, fun _ _ => rfl, fun _ => rfl, rfl, rfl, rfl, rfl, rfl⟩

/-- Claim C10: If a tenant holds a live cached QuickBooks handle and
credential resolution then yields nothing (integration disconnected), the
call returns `None` while leaving the whole manager state — in particular
the cached handle and its creation timestamp — unchanged. -/
theorem c10_no_creds_preserves_handle (st : ManagerState) (now : Time)
    (tenant : Tenant) (dbc : Option QBCreds) (outcome : OpenOutcome)
    (h : Handle)
    (hconn : st.tenant_connections tenant .quickbooks = some h)
    (hres : (resolve_quickbooks_creds st now tenant dbc).1 = none) :
    (get_quickbooks_mcp st now tenant dbc outcome).result = none ∧
    (get_quickbooks_mcp st now tenant dbc outcome).state.tenant_connections
        tenant .quickbooks = some h ∧
    (get_quickbooks_mcp st now tenant dbc
        outcome).state.connection_created_at tenant .quickbooks
      = st.connection_created_at tenant .quickbooks ∧
    (get_quickbooks_mcp st now tenant dbc outcome).state = st := by
  have hz := resolve_qb_none_state st now tenant dbc hres
  unfold get_quickbooks_mcp
  rw [hz]
  exact ⟨rfl, hconn, rfl, rfl⟩

/-- Witness for C10 at a concrete input. -/
theorem c10_no_creds_preserves_handle_witness :
    (get_quickbooks_mcp
        { initState with
          tenant_connections :=
            update2 initState.tenant_connections 0 .quickbooks (some 5)
          connection_created_at :=
            update2 initState.connection_created_at 0 .quickbooks
              (some 0) } 10 0 none OpenOutcome.err).result = none ∧
    (get_quickbooks_mcp
        { initState with
          tenant_connections :=
            update2 initState.tenant_connections 0 .quickbooks (some 5)
          connection_created_at :=
            update2 initState.connection_created_at 0 .quickbooks
              (some 0) } 10 0 none
        OpenOutcome.err).state.tenant_connections 0 .quickbooks = some 5 := by
  have hm := c10_no_creds_preserves_handle
    { initState with
      tenant_connections :=
        update2 initState.tenant_connections 0 .quickbooks (some 5)
      connection_created_at :=
        update2 initState.connection_created_at 0 .quickbooks (some 0) }
    10 0 none OpenOutcome.err 5 (by decide) (by decide)
  exact ⟨hm.1, hm.2.1⟩

/-- Witness for C1 at a concrete input (a timed-out QuickBooks `open`). -/
theorem c1_open_failure_contained_witness :
    (get_quickbooks_mcp initState 0 0 (some ⟨1, 2⟩)
        OpenOutcome.timeout).result = none ∧
    (get_quickbooks_mcp initState 0 0 (some ⟨1, 2⟩)
        OpenOutcome.timeout).state.failed_connections 0 .quickbooks
      = some 0 ∧
    (get_quickbooks_mcp initState 0 0 (some ⟨1, 2⟩)
        OpenOutcome.timeout).state.tenant_connections 0 .quickbooks
      = none := by
  have hm := c1_open_failure_contained initState 0 0 (some ⟨1, 2⟩) none
    OpenOutcome.timeout (fun h hh => by cases hh)
  exact hm.1 (by decide)

/-- Witness for C2 at a concrete input: connect at `t=0`, call again at
`t=10` with the same credentials. -/
theorem c2_sequential_reuse_witness :
    ((get_quickbooks_mcp
        (get_quickbooks_mcp initState 0 0 (some ⟨1, 2⟩)
          (OpenOutcome.success 5)).state 10 0 (some ⟨1, 2⟩)
        (OpenOutcome.success 9)).result = some 5 ∧
     (get_quickbooks_mcp
        (get_quickbooks_mcp initState 0 0 (some ⟨1, 2⟩)
          (OpenOutcome.success 5)).state 10 0 (some ⟨1, 2⟩)
        (OpenOutcome.success 9)).open_attempted = false) ∧
    ((get_global_mcp
        (get_global_mcp initState 0 0 none (OpenOutcome.success 5)).state 10
        0 none (OpenOutcome.success 9)).result = some 5 ∧
     (get_global_mcp
        (get_global_mcp initState 0 0 none (OpenOutcome.success 5)).state 10
        0 none (OpenOutcome.success 9)).open_attempted = false) := by
  have hm := c2_sequential_reuse initState 0 10 0 (some ⟨1, 2⟩)
    (some ⟨1, 2⟩) none none (OpenOutcome.success 5) (OpenOutcome.success 9)
    5 5
  exact ⟨hm.1 (by decide) (by decide) (by decide) (by decide),
    hm.2 (by decide)⟩

/-- Witness for C3 at a concrete input: cached handle `5` built with token
`1`, next resolution returns token `2`, fresh handle `7`. -/
theorem c3_token_rotation_recreates_witness :
    (get_quickbooks_mcp
        { initState with
          tenant_connections :=
            update2 initState.tenant_connections 0 .quickbooks (some 5)
          tenant_tokens := update1 initState.tenant_tokens 0 (some 1)
          connection_created_at :=
            update2 initState.connection_created_at 0 .quickbooks
              (some 0) } 10 0 (some ⟨2, 9⟩)
        (OpenOutcome.success 7)).result = some 7 ∧
    (get_quickbooks_mcp
        { initState with
          tenant_connections :=
            update2 initState.tenant_connections 0 .quickbooks (some 5)
          tenant_tokens := update1 initState.tenant_tokens 0 (some 1)
          connection_created_at :=
            update2 initState.connection_created_at 0 .quickbooks
              (some 0) } 10 0 (some ⟨2, 9⟩)
        (OpenOutcome.success 7)).open_attempted = true ∧
    (get_quickbooks_mcp
        { initState with
          tenant_connections :=
            update2 initState.tenant_connections 0 .quickbooks (some 5)
          tenant_tokens := update1 initState.tenant_tokens 0 (some 1)
          connection_created_at :=
            update2 initState.connection_created_at 0 .quickbooks
              (some 0) } 10 0 (some ⟨2, 9⟩)
        (OpenOutcome.success 7)).state.tenant_connections 0 .quickbooks
      = some 7 ∧
    some 7 ≠ some (5 : Handle) := by
  exact c3_token_rotation_recreates
    { initState with
      tenant_connections :=
        update2 initState.tenant_connections 0 .quickbooks (some 5)
      tenant_tokens := update1 initState.tenant_tokens 0 (some 1)
      connection_created_at :=
        update2 initState.connection_created_at 0 .quickbooks (some 0) }
    10 0 (some ⟨2, 9⟩) 5 1 ⟨2, 9⟩ 7 (by decide) (by decide) (by decide)
    (by decide) (by decide)

end UnifiedMCP
